import Mathlib

/-!
Verification of the derivation pipeline of a TfL analytics dashboard.

The embedding models the module-level pipeline of src/dashboard.py: the three
fetchers (stations, line status, bus status), the line and status filter, the
per-station worst-status scan of the map section, the journey planner control
flow, and the per-mode journey time aggregation.  Quantities the code never
computes with (float coordinates, the content of timestamps) are modelled as
integers; a timestamp that datetime.fromisoformat cannot parse is modelled as
Option.none.
-/

namespace TflDashboard

/-- One record of the line-status collection built by fetch_disruptions. -/
structure LineStatus where
  line_id : String
  line_name : String
  status : String
deriving DecidableEq

/-- One record of the bus-status collection built by fetch_bus_disruptions. -/
structure BusRouteStatus where
  route_name : String
  status : String
  reason : String
deriving DecidableEq

/-- A pandas data frame: column labels and typed rows. -/
structure DataFrame (α : Type) where
  columns : List String
  rows : List α
deriving DecidableEq

/-- pd.DataFrame built from a list of records: pandas derives the column
labels from the record keys, so an empty record list yields a frame with no
columns. -/
def df_of_records {α : Type} (cols : List String) (rows : List α) : DataFrame α :=
  { columns := if rows.isEmpty then [] else cols, rows := rows }

/-- Result of one upstream HTTP call: netError models a raised network
exception; ok carries the status code and the decoded JSON body, where none
stands for a body that does not decode to the expected shape. -/
inductive Response (α : Type) where
  | netError : Response α
  | ok (status_code : Nat) (body : Option α) : Response α

/-- One entry of a lineStatuses array in the upstream payload; keys read with
.get are none when absent. -/
structure RawLineStatusEntry where
  statusSeverityDescription : Option String
  reason : Option String
deriving DecidableEq

/-- One line record of the upstream Line/Mode Status payload; a required key
that is absent is none, and an absent lineStatuses key is the empty list (the
bus fetcher reads it with .get and default [], and for the tube fetcher a
missing key and an empty list both make the [0] access raise). -/
structure RawLine where
  id : Option String
  name : Option String
  lineStatuses : List RawLineStatusEntry
deriving DecidableEq

/-- Column labels of the line-status frame. -/
def disruption_columns : List String := ["line_id", "line_name", "status"]

/-- Column labels of the bus-status frame. -/
def bus_columns : List String := ["route_name", "status", "reason"]

/-- Body of the fetch_disruptions loop for one record: subscript access on a
missing key raises, so a record missing id, name, a first lineStatuses entry,
or its statusSeverityDescription yields none. -/
def extract_disruption (line : RawLine) : Option LineStatus :=
  match line.id, line.name, line.lineStatuses.head? with
  | some i, some n, some entry =>
    match entry.statusSeverityDescription with
    | some s => some { line_id := i, line_name := n, status := s }
    | none => none
  | _, _, _ => none

/-- Body of the fetch_bus_disruptions loop for one record: name is a required
key; an empty lineStatuses list defaults to Good Service with empty reason;
reason is read with .get and default empty string, but
statusSeverityDescription of the first entry is a required key. -/
def extract_bus (line : RawLine) : Option BusRouteStatus :=
  match line.name with
  | none => none
  | some n =>
    match line.lineStatuses.head? with
    | none => some { route_name := n, status := "Good Service", reason := "" }
    | some entry =>
      match entry.statusSeverityDescription with
      | none => none
      | some s => some { route_name := n, status := s, reason := entry.reason.getD "" }

/-- The append loop over the payload records: the first record whose
extraction raises aborts the whole loop, and the surrounding try returns the
empty frame. -/
def extract_all {β : Type} (f : RawLine → Option β) : List RawLine → Option (List β)
  | [] => some []
  | line :: rest =>
    match f line with
    | none => none
    | some b => (extract_all f rest).map (fun bs => b :: bs)

/-- fetch_disruptions: any raised step (network error, undecodable body, or a
record access failure) lands in the bare except, which returns
pd.DataFrame(columns=[line_id, line_name, status]).  The status code of the
response is never inspected. -/
def fetch_disruptions (resp : Response (List RawLine)) : DataFrame LineStatus :=
  match resp with
  | Response.netError => { columns := disruption_columns, rows := [] }
  | Response.ok _ body =>
    match body with
    | none => { columns := disruption_columns, rows := [] }
    | some data =>
      match extract_all extract_disruption data with
      | none => { columns := disruption_columns, rows := [] }
      | some rows => df_of_records disruption_columns rows

/-- fetch_bus_disruptions: same control flow as fetch_disruptions with the
bus record extraction and the bus columns. -/
def fetch_bus_disruptions (resp : Response (List RawLine)) : DataFrame BusRouteStatus :=
  match resp with
  | Response.netError => { columns := bus_columns, rows := [] }
  | Response.ok _ body =>
    match body with
    | none => { columns := bus_columns, rows := [] }
    | some data =>
      match extract_all extract_bus data with
      | none => { columns := bus_columns, rows := [] }
      | some rows => df_of_records bus_columns rows

/-- The upstream failures named by the failure policy: a raised network
error, an undecodable payload, or a payload holding a record the extraction
loop cannot process. -/
def upstream_failed {β : Type} (extract : RawLine → Option β)
    (resp : Response (List RawLine)) : Prop :=
  resp = Response.netError
    ∨ (∃ sc, resp = Response.ok sc none)
    ∨ (∃ sc data, resp = Response.ok sc (some data) ∧ ∃ r ∈ data, extract r = none)

/-- Coordinates carry no arithmetic anywhere in the pipeline, so they are
modelled as integers; only presence and identity matter. -/
abbrev Coord := Int

/-- One entry of the lines array of a stop record; the list comprehension in
fetch_stations reads the required key name. -/
structure RawLineRef where
  name : String
deriving DecidableEq

/-- One stopPoints record of the StopPoint/Mode response; keys read with .get
are none when absent. -/
structure RawStop where
  stopType : Option String
  lat : Option Coord
  lon : Option Coord
  naptanId : Option String
  commonName : Option String
  lines : List RawLineRef
deriving DecidableEq

/-- One record of the stations collection built by fetch_stations. -/
structure Station where
  station_name : Option String
  lat : Coord
  lon : Coord
  naptanId : String
  lines : List String
deriving DecidableEq

/-- Body of the fetch_stations loop for one stop record: keep only
NaptanMetroStation stops whose lat and lon are present and whose naptanId is
truthy (in Python, not naptan also holds for the empty string). -/
def process_stop (stop : RawStop) : Option Station :=
  if stop.stopType = some "NaptanMetroStation" then
    match stop.lat, stop.lon, stop.naptanId with
    | some la, some lo, some naptan =>
      if naptan = "" then none
      else some { station_name := stop.commonName, lat := la, lon := lo,
                  naptanId := naptan, lines := stop.lines.map RawLineRef.name }
    | _, _, _ => none
  else none

/-- fetch_stations for the single mode tube: a non-200 response contributes
no stations; otherwise every stopPoints record goes through process_stop. -/
def fetch_stations (status_code : Nat) (stopPoints : List RawStop) : List Station :=
  if status_code ≠ 200 then [] else stopPoints.filterMap process_stop

/-- df[df[line_name] == line] followed by the empty check and .values[0]:
the status of the first record whose line_name matches, none when the
selection is empty. -/
def lookup_status (df : List LineStatus) (line : String) : Option String :=
  (df.find? (fun r => r.line_name == line)).map LineStatus.status

/-- The update of the worst-status scan, line 332 of the source. -/
def update_worst (worst line_status : String) : String :=
  if line_status = "Severe Delays" ∨ (worst ≠ "Severe Delays" ∧ line_status ≠ "Good Service")
  then line_status else worst

/-- One iteration of the worst-status scan: a line absent from the status
collection is skipped. -/
def worst_step (df : List LineStatus) (worst : String) (line : String) : String :=
  match lookup_status df line with
  | some line_status => update_worst worst line_status
  | none => worst

/-- The worst-status scan of the map marker loop, starting from Good
Service. -/
def worst_status (df : List LineStatus) (lines_here : List String) : String :=
  lines_here.foldl (worst_step df) "Good Service"

/-- Modelled from the spec wording, for comparison with the scan of the
source: the first non Good Service status encountered in the line order of
the station, skipping absent lines, defaulting to Good Service. -/
def spec_first_non_good (df : List LineStatus) (lines_here : List String) : String :=
  ((lines_here.filterMap (lookup_status df)).filter
    (fun s => decide (s ≠ "Good Service"))).headD "Good Service"

/-- The last non Good Service status encountered in the line order of the
station, skipping absent lines, defaulting to Good Service. -/
def spec_last_non_good (df : List LineStatus) (lines_here : List String) : String :=
  ((lines_here.filterMap (lookup_status df)).filter
    (fun s => decide (s ≠ "Good Service"))).getLastD "Good Service"

/-- The filtered_df mask, line 195 of the source: an empty selected_lines
list turns the line mask into the constant True, and the status mask is a
plain membership test. -/
def filtered_df (df : List LineStatus) (selected_lines status_filter : List String) :
    List LineStatus :=
  df.filter (fun r =>
    (if selected_lines.isEmpty then true else decide (r.line_name ∈ selected_lines))
      && decide (r.status ∈ status_filter))

/-- Python str.capitalize: first character upper cased, the rest lower
cased. -/
def py_capitalize (s : String) : String :=
  match s.data with
  | [] => ""
  | c :: rest => String.mk (c.toUpper :: rest.map Char.toLower)

/-- One journey leg as the planner loop reads it: the mode name read from
leg, and the two timestamps as parsed by datetime.fromisoformat in seconds,
none when unparsable. -/
structure JourneyLeg where
  mode_name : Option String
  departureTime : Option Int
  arrivalTime : Option Int
deriving DecidableEq

/-- The mode label of a leg, defaulted to Unknown and capitalized. -/
def leg_mode (leg : JourneyLeg) : String :=
  py_capitalize (leg.mode_name.getD "Unknown")

/-- int of total_seconds divided by 60: truncation toward zero, with the
timestamps in seconds. -/
def leg_minutes (dep_dt arr_dt : Int) : Int :=
  Int.tdiv (arr_dt - dep_dt) 60

/-- Python dict .get with a default. -/
def dict_get : List (String × Int) → String → Int → Int
  | [], _, d => d
  | p :: rest, k, d => if p.1 = k then p.2 else dict_get rest k d

/-- Python dict assignment: replace the binding in place, or append a new
binding. -/
def dict_set : List (String × Int) → String → Int → List (String × Int)
  | [], k, v => [(k, v)]
  | p :: rest, k, v => if p.1 = k then (k, v) :: rest else p :: dict_set rest k v

/-- One iteration of the mode_times loop: both timestamps must parse,
otherwise the inner except passes and the leg is skipped. -/
def mode_times_step (mode_times : List (String × Int)) (leg : JourneyLeg) :
    List (String × Int) :=
  match leg.departureTime, leg.arrivalTime with
  | some dep_dt, some arr_dt =>
    dict_set mode_times (leg_mode leg)
      (dict_get mode_times (leg_mode leg) 0 + leg_minutes dep_dt arr_dt)
  | _, _ => mode_times

/-- The per-journey mode_times dictionary. -/
def mode_times (legs : List JourneyLeg) : List (String × Int) :=
  legs.foldl mode_times_step []

/-- What one leg contributes to the total of its mode: its wall-clock minutes
when both timestamps parse, and zero otherwise. -/
def leg_contribution (leg : JourneyLeg) : Int :=
  match leg.departureTime, leg.arrivalTime with
  | some dep_dt, some arr_dt => leg_minutes dep_dt arr_dt
  | _, _ => 0

/-- The sum of the contributions of the legs of one mode. -/
def mode_total (m : String) (legs : List JourneyLeg) : Int :=
  ((legs.filter (fun leg => decide (leg_mode leg = m))).map leg_contribution).sum

/-- Python str.lower: every character lower cased. -/
def py_lower (s : String) : String :=
  String.mk (s.data.map Char.toLower)

/-- The lower-cased name match of get_naptan followed by .iloc[0]: the
naptanId of the first station whose name matches case-insensitively; a
station whose name is missing never matches. -/
def get_naptan (stations : List Station) (station_name : String) : Option String :=
  (stations.find? (fun s =>
    match s.station_name with
    | some n => py_lower n == py_lower station_name
    | none => false)).map Station.naptanId

/-- Python truthiness of the selectbox value. -/
def truthy : Option String → Bool
  | none => false
  | some s => decide (s ≠ "")

/-- The three ways the journey planner block can continue. -/
inductive PlannerStep where
  | no_selection : PlannerStep
  | same_station : PlannerStep
  | journey_request (start_naptan end_naptan : Option String) : PlannerStep
deriving DecidableEq

/-- The journey planner control flow up to the decision whether a journey
request is issued, lines 385 to 394 of the source. -/
def planner_step (stations : List Station) (start_input end_input : Option String) :
    PlannerStep :=
  if truthy start_input && truthy end_input then
    let start_naptan := get_naptan stations (start_input.getD "")
    let end_naptan := get_naptan stations (end_input.getD "")
    if start_naptan = end_naptan then PlannerStep.same_station
    else PlannerStep.journey_request start_naptan end_naptan
  else PlannerStep.no_selection

/-- The colour table of the map section. -/
def STATUS_COLOR : List (String × String) :=
  [("Good Service", "green"), ("Minor Delays", "orange"),
   ("Severe Delays", "red"), ("Part Closure", "darkred")]

/-- STATUS_COLOR.get with default gray. -/
def status_color (worst : String) : String :=
  ((STATUS_COLOR.find? (fun p => p.1 == worst)).map (fun p => p.2)).getD "gray"

/-- Python f-string rendering of a possibly missing name. -/
def py_str : Option String → String
  | some s => s
  | none => "None"

/-- The popup html assembled for one station. -/
def popup_html (df : List LineStatus) (station : Station) : String :=
  station.lines.foldl
    (fun acc line => acc ++ line ++ ": " ++ ((lookup_status df line).getD "Unknown") ++ "<br>")
    ("<b>" ++ py_str station.station_name ++ "</b><br><b>Lines:</b><br>")

/-- One folium CircleMarker as the map loop builds it. -/
structure CircleMarker where
  location : Coord × Coord
  radius : Nat
  color : String
  fill_color : String
  popup : String
deriving DecidableEq

/-- The marker built for one station with a nonempty lines list. -/
def marker_for (df : List LineStatus) (station : Station) : CircleMarker :=
  let color := status_color (worst_status df station.lines)
  { location := (station.lat, station.lon),
    radius := 5 + station.lines.length,
    color := color,
    fill_color := color,
    popup := popup_html df station }

/-- The map marker loop: a station with an empty lines list is skipped by the
continue before anything is computed for it. -/
def map_markers (stations : List Station) (df : List LineStatus) : List CircleMarker :=
  stations.filterMap (fun station =>
    if station.lines.isEmpty then none else some (marker_for df station))

/-- The worst-status scan is the fold of update_worst over the statuses that
the lookups produce, in line order. -/
theorem worst_status_eq_filterMap (df : List LineStatus) (lines_here : List String) :
    worst_status df lines_here
      = (lines_here.filterMap (lookup_status df)).foldl update_worst "Good Service" := by
  have aux : ∀ (ls : List String) (acc : String),
      ls.foldl (worst_step df) acc = (ls.filterMap (lookup_status df)).foldl update_worst acc := by
    intro ls
    induction ls with
    | nil => intro acc; rfl
    | cons l rest ih =>
      intro acc
      rw [List.foldl_cons, List.filterMap_cons]
      cases h : lookup_status df l with
      | none => simp only [worst_step, h]; exact ih acc
      | some s => simp only [worst_step, h, List.foldl_cons]; exact ih (update_worst acc s)
  exact aux lines_here "Good Service"

/-- Once the scan has reached Severe Delays it stays there. -/
theorem update_worst_severe (s : String) : update_worst "Severe Delays" s = "Severe Delays" := by
  unfold update_worst
  by_cases h : s = "Severe Delays"
  · subst h; simp
  · simp [h]

/-- A fold of update_worst starting at Severe Delays ends at Severe Delays. -/
theorem foldl_update_worst_from_severe (ss : List String) :
    ss.foldl update_worst "Severe Delays" = "Severe Delays" := by
  induction ss with
  | nil => rfl
  | cons s rest ih => rw [List.foldl_cons, update_worst_severe]; exact ih

/-- A fold of update_worst over a status list holding Severe Delays ends at
Severe Delays, whatever the accumulator. -/
theorem foldl_update_worst_of_mem_severe :
    ∀ (ss : List String) (acc : String), "Severe Delays" ∈ ss →
      ss.foldl update_worst acc = "Severe Delays" := by
  intro ss
  induction ss with
  | nil => intro acc h; cases h
  | cons s rest ih =>
    intro acc h
    rw [List.foldl_cons]
    rcases List.mem_cons.mp h with h1 | h2
    · subst h1
      have : update_worst acc "Severe Delays" = "Severe Delays" := by
        unfold update_worst; simp
      rw [this]; exact foldl_update_worst_from_severe rest
    · exact ih _ h2

/-- C1: for every line-status collection and every station line list, if any
line of the station has current status Severe Delays, the worst-status scan
returns exactly Severe Delays, regardless of the other statuses and of the
scan order. -/
theorem c1_severe_delays_dominates (df : List LineStatus) (lines_here : List String)
    (h : ∃ l ∈ lines_here, lookup_status df l = some "Severe Delays") :
    worst_status df lines_here = "Severe Delays" := by
  obtain ⟨l, hl, hs⟩ := h
  rw [worst_status_eq_filterMap]
  exact foldl_update_worst_of_mem_severe _ _ (List.mem_filterMap.mpr ⟨l, hl, hs⟩)

/-- C1 witness: a concrete station where the second scanned line has Severe
Delays and the first has Minor Delays. -/
theorem c1_severe_delays_dominates_witness :
    worst_status [⟨"central", "Central", "Minor Delays"⟩, ⟨"victoria", "Victoria", "Severe Delays"⟩]
      ["Central", "Victoria"] = "Severe Delays" :=
  c1_severe_delays_dominates _ _ ⟨"Victoria", by decide, by decide⟩

/-- When neither the accumulator nor the incoming status is Severe Delays,
the scan keeps any non Good Service status and otherwise keeps the
accumulator: the incoming status wins whenever it is not Good Service. -/
theorem update_worst_no_severe (worst s : String) (hw : worst ≠ "Severe Delays")
    (hs : s ≠ "Severe Delays") :
    update_worst worst s = if s = "Good Service" then worst else s := by
  unfold update_worst
  by_cases hg : s = "Good Service" <;> simp [hg, hs, hw]

/-- With Severe Delays nowhere in the status list, the fold of update_worst
keeps the last non Good Service status. -/
theorem foldl_update_worst_no_severe :
    ∀ (ss : List String) (acc : String), (∀ s ∈ ss, s ≠ "Severe Delays") →
      acc ≠ "Severe Delays" →
      ss.foldl update_worst acc
        = (ss.filter (fun s => decide (s ≠ "Good Service"))).getLastD acc := by
  intro ss
  induction ss with
  | nil => intro acc _ _; rfl
  | cons s rest ih =>
    intro acc hss hacc
    have hs : s ≠ "Severe Delays" := hss s (List.mem_cons_self _ _)
    have hrest : ∀ x ∈ rest, x ≠ "Severe Delays" := fun x hx => hss x (List.mem_cons_of_mem _ hx)
    by_cases hg : s = "Good Service"
    · have hstep : update_worst acc s = acc := by
        rw [update_worst_no_severe acc s hacc hs, if_pos hg]
      have hfilter : List.filter (fun x => decide (x ≠ "Good Service")) (s :: rest)
          = List.filter (fun x => decide (x ≠ "Good Service")) rest := by
        rw [List.filter_cons]; simp [hg]
      rw [List.foldl_cons, hstep, hfilter]
      exact ih acc hrest hacc
    · have hstep : update_worst acc s = s := by
        rw [update_worst_no_severe acc s hacc hs, if_neg hg]
      have hfilter : List.filter (fun x => decide (x ≠ "Good Service")) (s :: rest)
          = s :: List.filter (fun x => decide (x ≠ "Good Service")) rest := by
        rw [List.filter_cons]; simp [hg]
      rw [List.foldl_cons, hstep, hfilter, List.getLastD_cons]
      exact ih s hrest hs

/-- C2 counterexample: with Minor Delays on the first scanned line and Part
Closure on the second, and no Severe Delays anywhere, the scan returns Part
Closure while the first non Good Service status is Minor Delays. -/
theorem c2_first_non_good_counterexample :
    (∀ l ∈ ["A", "B"],
      lookup_status [⟨"a", "A", "Minor Delays"⟩, ⟨"b", "B", "Part Closure"⟩] l
        ≠ some "Severe Delays")
    ∧ worst_status [⟨"a", "A", "Minor Delays"⟩, ⟨"b", "B", "Part Closure"⟩] ["A", "B"]
        = "Part Closure"
    ∧ spec_first_non_good [⟨"a", "A", "Minor Delays"⟩, ⟨"b", "B", "Part Closure"⟩] ["A", "B"]
        = "Minor Delays"
    ∧ ("Part Closure" : String) ≠ "Minor Delays" := by
  refine ⟨by decide, by decide, by decide, by decide⟩

/-- C2 amended: when no scanned line has current status Severe Delays, the
worst-status scan returns the last non Good Service status encountered in
the line order of the station (Good Service when every looked-up line is
good); lines absent from the collection are skipped without affecting the
result. -/
theorem c2_last_non_good_wins (df : List LineStatus) (lines_here : List String)
    (h : ∀ l ∈ lines_here, lookup_status df l ≠ some "Severe Delays") :
    worst_status df lines_here = spec_last_non_good df lines_here := by
  rw [worst_status_eq_filterMap, spec_last_non_good]
  apply foldl_update_worst_no_severe
  · intro s hs
    obtain ⟨l, hl, hlk⟩ := List.mem_filterMap.mp hs
    intro hcontra
    exact h l hl (hcontra ▸ hlk)
  · decide

/-- C2 amended witness: the concrete station of the counterexample satisfies
the amended description. -/
theorem c2_last_non_good_wins_witness :
    worst_status [⟨"a", "A", "Minor Delays"⟩, ⟨"b", "B", "Part Closure"⟩] ["A", "B"]
      = spec_last_non_good [⟨"a", "A", "Minor Delays"⟩, ⟨"b", "B", "Part Closure"⟩] ["A", "B"] :=
  c2_last_non_good_wins _ _ (by decide)

/-- A fold of update_worst lands on a member of the status list or on the
accumulator. -/
theorem foldl_update_worst_mem_or :
    ∀ (ss : List String) (acc : String),
      ss.foldl update_worst acc ∈ ss ∨ ss.foldl update_worst acc = acc := by
  intro ss
  induction ss with
  | nil => intro acc; exact Or.inr rfl
  | cons s rest ih =>
    intro acc
    rw [List.foldl_cons]
    have hu : update_worst acc s = s ∨ update_worst acc s = acc := by
      unfold update_worst; split
      · exact Or.inl rfl
      · exact Or.inr rfl
    rcases ih (update_worst acc s) with hmem | heq
    · exact Or.inl (List.mem_cons_of_mem _ hmem)
    · rw [heq]
      rcases hu with h1 | h2
      · rw [h1]; exact Or.inl (List.mem_cons_self _ _)
      · rw [h2]; exact Or.inr rfl

/-- C3: the computed worst status is always one of the statuses observed
among the lines of the station in the current collection, or Good Service;
in particular an empty line list, or a line list entirely absent from the
collection, yields Good Service. -/
theorem c3_worst_status_observed (df : List LineStatus) (lines_here : List String) :
    (worst_status df lines_here ∈ lines_here.filterMap (lookup_status df)
      ∨ worst_status df lines_here = "Good Service")
    ∧ (lines_here = [] → worst_status df lines_here = "Good Service")
    ∧ ((∀ l ∈ lines_here, lookup_status df l = none) →
        worst_status df lines_here = "Good Service") := by
  refine ⟨?_, ?_, ?_⟩
  · rw [worst_status_eq_filterMap]
    exact foldl_update_worst_mem_or _ _
  · intro h; subst h; rfl
  · intro h
    rw [worst_status_eq_filterMap, List.filterMap_eq_nil_iff.mpr h]
    rfl

/-- C3 witness: a station whose single line is absent from the collection
gets Good Service. -/
theorem c3_worst_status_observed_witness :
    worst_status [] ["Central"] = "Good Service" :=
  (c3_worst_status_observed [] ["Central"]).2.2 (by decide)

/-- Reading a dictionary after an assignment: the assigned key reads the new
value, every other key is untouched. -/
theorem dict_get_dict_set (k : String) (v : Int) :
    ∀ (mt : List (String × Int)) (m : String) (d : Int),
      dict_get (dict_set mt k v) m d = if m = k then v else dict_get mt m d := by
  intro mt
  induction mt with
  | nil =>
    intro m d
    by_cases h : m = k
    · subst h; simp [dict_set, dict_get]
    · simp [dict_set, dict_get, h, Ne.symm h]
  | cons p rest ih =>
    intro m d
    by_cases hpk : p.1 = k
    · by_cases hmk : m = k
      · subst hmk; simp [dict_set, dict_get, hpk]
      · simp [dict_set, dict_get, hpk, hmk, Ne.symm hmk]
    · by_cases hpm : p.1 = m
      · have hmk : m ≠ k := fun hh => hpk (by rw [hpm, hh])
        simp [dict_set, dict_get, hpk, hpm, hmk]
      · simp [dict_set, dict_get, hpk, hpm, ih]

/-- One loop iteration adds the contribution of the leg to the total of its
mode and leaves every other mode untouched. -/
theorem dict_get_mode_times_step (mt : List (String × Int)) (leg : JourneyLeg) (m : String) :
    dict_get (mode_times_step mt leg) m 0
      = dict_get mt m 0 + (if leg_mode leg = m then leg_contribution leg else 0) := by
  cases hd : leg.departureTime with
  | none => simp [mode_times_step, leg_contribution, hd]
  | some dep_dt =>
    cases ha : leg.arrivalTime with
    | none => simp [mode_times_step, leg_contribution, hd, ha]
    | some arr_dt =>
      simp only [mode_times_step, leg_contribution, hd, ha]
      rw [dict_get_dict_set]
      by_cases hm : leg_mode leg = m
      · rw [if_pos hm.symm, if_pos hm, hm]
      · rw [if_neg (fun hh => hm hh.symm), if_neg hm, add_zero]

/-- The fold over the legs accumulates, mode by mode, the per-leg
contributions on top of the incoming dictionary. -/
theorem dict_get_foldl_mode_times :
    ∀ (legs : List JourneyLeg) (mt : List (String × Int)) (m : String),
      dict_get (legs.foldl mode_times_step mt) m 0 = dict_get mt m 0 + mode_total m legs := by
  intro legs
  induction legs with
  | nil => intro mt m; simp [mode_total]
  | cons leg rest ih =>
    intro mt m
    rw [List.foldl_cons, ih, dict_get_mode_times_step]
    have hsplit : mode_total m (leg :: rest)
        = (if leg_mode leg = m then leg_contribution leg else 0) + mode_total m rest := by
      unfold mode_total
      rw [List.filter_cons]
      by_cases hm : leg_mode leg = m
      · simp [hm]
      · simp [hm]
    rw [hsplit, add_assoc]

/-- C4: for every journey, reading the mode_times dictionary at any mode
(with the default 0 used by the loop itself) gives the sum over the legs of
that mode of their wall-clock minutes, an unparsable leg contributing zero
and raising nothing; and the concrete journey with two Bus legs of 10 and 15
minutes and a Walking leg of 5 minutes yields exactly the dictionary with
Bus at 25 and Walking at 5. -/
theorem c4_mode_times_sums :
    (∀ (legs : List JourneyLeg) (m : String),
      dict_get (mode_times legs) m 0 = mode_total m legs)
    ∧ mode_times [⟨some "bus", some 0, some 600⟩, ⟨some "bus", some 600, some 1500⟩,
        ⟨some "walking", some 1500, some 1800⟩] = [("Bus", 25), ("Walking", 5)] := by
  constructor
  · intro legs m
    have h := dict_get_foldl_mode_times legs [] m
    simpa [mode_times, dict_get] using h
  · decide

/-- C5: the filter keeps exactly the records whose line name is selected (or
every record when the line selection is empty) and whose status is selected;
an empty status selection empties the result for every input. -/
theorem c5_filtered_df_characterization :
    (∀ (df : List LineStatus) (selected_lines status_filter : List String) (r : LineStatus),
      r ∈ filtered_df df selected_lines status_filter
        ↔ r ∈ df ∧ (selected_lines = [] ∨ r.line_name ∈ selected_lines)
            ∧ r.status ∈ status_filter)
    ∧ (∀ (df : List LineStatus) (selected_lines : List String),
        filtered_df df selected_lines [] = []) := by
  constructor
  · intro df sl ss r
    by_cases hsl : sl = []
    · subst hsl
      simp [filtered_df, List.mem_filter]
    · have hne : sl.isEmpty = false := by
        cases sl with
        | nil => exact absurd rfl hsl
        | cons a t => rfl
      simp [filtered_df, List.mem_filter, hne, hsl]
  · intro df sl
    rw [filtered_df]
    refine List.filter_eq_nil_iff.mpr ?_
    intro r _
    simp

/-- A record that the extraction rejects aborts the whole append loop. -/
theorem extract_all_eq_none {β : Type} (f : RawLine → Option β) :
    ∀ (data : List RawLine), (∃ r ∈ data, f r = none) → extract_all f data = none := by
  intro data
  induction data with
  | nil => rintro ⟨r, hr, _⟩; cases hr
  | cons a rest ih =>
    rintro ⟨r, hr, hfr⟩
    rcases List.mem_cons.mp hr with h1 | h2
    · subst h1; simp [extract_all, hfr]
    · cases hfa : f a with
      | none => simp [extract_all, hfa]
      | some b => simp [extract_all, hfa, ih ⟨r, h2, hfr⟩]

/-- C6 counterexample: a non-success response (status code 500) whose body
still decodes to one well-formed line record makes fetch_disruptions return
that record, not the empty collection: the status code is never checked. -/
theorem c6_nonsuccess_response_counterexample :
    fetch_disruptions (Response.ok 500 (some
        [⟨some "victoria", some "Victoria", [⟨some "Minor Delays", none⟩]⟩]))
      = { columns := disruption_columns,
          rows := [⟨"victoria", "Victoria", "Minor Delays"⟩] }
    ∧ ([(⟨"victoria", "Victoria", "Minor Delays"⟩ : LineStatus)] : List LineStatus) ≠ [] := by
  refine ⟨by decide, by decide⟩

/-- C6 amended: when the upstream call raises a network error, or its payload
is undecodable, or any record of the payload cannot be processed, both
fetchers return the empty collection with the correct column shape and no
exception escapes; a non-success status code is not checked by itself. -/
theorem c6_failure_yields_empty_frames (respA respB : Response (List RawLine))
    (hA : upstream_failed extract_disruption respA)
    (hB : upstream_failed extract_bus respB) :
    fetch_disruptions respA = { columns := disruption_columns, rows := [] }
    ∧ fetch_bus_disruptions respB = { columns := bus_columns, rows := [] } := by
  constructor
  · rcases hA with h | ⟨sc, h⟩ | ⟨sc, data, h, hbad⟩
    · subst h; rfl
    · subst h; rfl
    · subst h
      simp [fetch_disruptions, extract_all_eq_none extract_disruption data hbad]
  · rcases hB with h | ⟨sc, h⟩ | ⟨sc, data, h, hbad⟩
    · subst h; rfl
    · subst h; rfl
    · subst h
      simp [fetch_bus_disruptions, extract_all_eq_none extract_bus data hbad]

/-- C6 amended witness: on a raised network error both fetchers return their
empty, correctly shaped frame. -/
theorem c6_failure_yields_empty_frames_witness :
    fetch_disruptions Response.netError = { columns := disruption_columns, rows := [] }
    ∧ fetch_bus_disruptions Response.netError = { columns := bus_columns, rows := [] } :=
  c6_failure_yields_empty_frames _ _ (Or.inl rfl) (Or.inl rfl)

/-- C7 counterexample: one malformed record (missing id) in a response that
also holds a well-formed record makes fetch_disruptions return the empty
collection, so the well-formed record of the same response is lost. -/
theorem c7_good_record_lost_counterexample :
    extract_disruption ⟨some "victoria", some "Victoria", [⟨some "Minor Delays", none⟩]⟩
        = some ⟨"victoria", "Victoria", "Minor Delays"⟩
    ∧ (fetch_disruptions (Response.ok 200 (some
        [⟨some "victoria", some "Victoria", [⟨some "Minor Delays", none⟩]⟩,
         ⟨none, some "Central", [⟨some "Good Service", none⟩]⟩]))).rows = [] := by
  refine ⟨by decide, by decide⟩

/-- C7 amended: a malformed record in the line-status response makes the
whole fetch return the empty collection: fetch_disruptions does not recover
per record, and the well-formed records of the same response are discarded
with it. -/
theorem c7_malformed_record_aborts_fetch (sc : Nat) (data : List RawLine)
    (h : ∃ r ∈ data, extract_disruption r = none) :
    fetch_disruptions (Response.ok sc (some data))
      = { columns := disruption_columns, rows := [] } := by
  simp [fetch_disruptions, extract_all_eq_none extract_disruption data h]

/-- C7 amended witness: a single record missing its id empties the fetch. -/
theorem c7_malformed_record_aborts_fetch_witness :
    fetch_disruptions (Response.ok 200 (some [⟨none, some "Central", []⟩]))
      = { columns := disruption_columns, rows := [] } :=
  c7_malformed_record_aborts_fetch 200 _ ⟨⟨none, some "Central", []⟩, by decide, by decide⟩

/-- The keep-and-build step of fetch_stations, characterized: a stop maps to
a station exactly when it is a NaptanMetroStation with lat, lon and a
nonempty naptanId, and then name, coordinates, id and line list are carried
over unchanged. -/
theorem process_stop_eq_some_iff (stop : RawStop) (st : Station) :
    process_stop stop = some st
      ↔ stop.stopType = some "NaptanMetroStation"
        ∧ ∃ la lo naptan, stop.lat = some la ∧ stop.lon = some lo
            ∧ stop.naptanId = some naptan ∧ naptan ≠ ""
            ∧ st = { station_name := stop.commonName, lat := la, lon := lo,
                     naptanId := naptan, lines := stop.lines.map RawLineRef.name } := by
  obtain ⟨sty, slat, slon, snap, scn, sln⟩ := stop
  by_cases hty : sty = some "NaptanMetroStation"
  · subst hty
    cases slat with
    | none => simp [process_stop]
    | some la =>
      cases slon with
      | none => simp [process_stop]
      | some lo =>
        cases snap with
        | none => simp [process_stop]
        | some naptan =>
          by_cases hne : naptan = ""
          · subst hne; simp [process_stop]
          · have hps : process_stop ⟨some "NaptanMetroStation", some la, some lo,
                some naptan, scn, sln⟩
                = some { station_name := scn, lat := la, lon := lo,
                         naptanId := naptan, lines := sln.map RawLineRef.name } := by
              simp [process_stop, hne]
            rw [hps, Option.some.injEq]
            constructor
            · intro h
              exact ⟨rfl, la, lo, naptan, rfl, rfl, rfl, hne, h.symm⟩
            · rintro ⟨-, la2, lo2, n2, hla, hlo, hn, -, hst⟩
              obtain rfl := Option.some.inj hla
              obtain rfl := Option.some.inj hlo
              obtain rfl := Option.some.inj hn
              exact hst.symm
  · simp [process_stop, hty]

/-- C8: a station is in the fetch_stations output exactly when it is the
field-preserving image of a stop record that is a NaptanMetroStation with
latitude, longitude and a nonempty stable identifier present; every other
record is dropped and contributes nothing. -/
theorem c8_fetch_stations_characterization (stopPoints : List RawStop) (st : Station) :
    st ∈ fetch_stations 200 stopPoints
      ↔ ∃ stop ∈ stopPoints, stop.stopType = some "NaptanMetroStation"
          ∧ ∃ la lo naptan, stop.lat = some la ∧ stop.lon = some lo
              ∧ stop.naptanId = some naptan ∧ naptan ≠ ""
              ∧ st = { station_name := stop.commonName, lat := la, lon := lo,
                       naptanId := naptan, lines := stop.lines.map RawLineRef.name } := by
  have h200 : fetch_stations 200 stopPoints = stopPoints.filterMap process_stop := by
    unfold fetch_stations
    simp
  rw [h200, List.mem_filterMap]
  constructor
  · rintro ⟨stop, hmem, hps⟩
    exact ⟨stop, hmem, (process_stop_eq_some_iff stop st).mp hps⟩
  · rintro ⟨stop, hmem, hcond⟩
    exact ⟨stop, hmem, (process_stop_eq_some_iff stop st).mpr hcond⟩

/-- C9: when both selections are nonempty and resolve to the same naptanId,
the planner block lands in the same-station informational state, so no
journey request is issued. -/
theorem c9_same_station_short_circuit (stations : List Station) (s e n : String)
    (hs : s ≠ "") (he : e ≠ "")
    (hsn : get_naptan stations s = some n) (hen : get_naptan stations e = some n) :
    planner_step stations (some s) (some e) = PlannerStep.same_station := by
  simp [planner_step, truthy, hs, he, hsn, hen]

/-- C9 witness: one station named Bank selected, with different letter cases,
as both ends. -/
theorem c9_same_station_short_circuit_witness :
    planner_step [⟨some "Bank", 0, 0, "940GZZLUBNK", ["Central", "Northern"]⟩]
      (some "bank") (some "BANK") = PlannerStep.same_station :=
  c9_same_station_short_circuit _ "bank" "BANK" "940GZZLUBNK"
    (by decide) (by decide) (by decide) (by decide)

/-- C10: a station whose lines list is empty produces no marker at all: the
marker list over a station collection holding it equals the marker list with
the station removed, for every line-status collection. -/
theorem c10_empty_lines_station_no_marker (df : List LineStatus) (pre post : List Station)
    (st : Station) (h : st.lines = []) :
    map_markers (pre ++ st :: post) df = map_markers (pre ++ post) df := by
  unfold map_markers
  rw [List.filterMap_append, List.filterMap_append, List.filterMap_cons]
  simp [h]

/-- C10 witness: a concrete station with no lines yields the same (empty)
marker list as the empty station collection. -/
theorem c10_empty_lines_station_no_marker_witness :
    map_markers [⟨some "Ghost", 51, 0, "940GHOST", []⟩] [] = map_markers [] [] :=
  c10_empty_lines_station_no_marker [] [] [] ⟨some "Ghost", 51, 0, "940GHOST", []⟩ rfl

end TflDashboard
